import Mathlib

/-
Shallow embedding of the Streamer-GOLIVE-Bot live-detection engine
(src/index.js, class StreamMonitorBot).  JavaScript Maps are modelled as
association lists with uniquely-keyed get/set/delete semantics; network
calls are modelled by passing their outcome (`Except` for calls whose
failure is caught) as an explicit argument; `async`/`await` sequencing is
modelled by explicit state passing.
-/

/-- Computes whether the first character list is a prefix of the second. -/
def listStartsWith : List Char → List Char → Bool
  | [], _ => true
  | _ :: _, [] => false
  | a :: as, b :: bs => a = b && listStartsWith as bs

/-- Computes whether `pat` occurs as a contiguous sublist of the second
argument. -/
def listContainsSub (pat : List Char) : List Char → Bool
  | [] => pat.isEmpty
  | l :: rest => listStartsWith pat (l :: rest) || listContainsSub pat rest

/-- JS `s.includes(sub)`: `sub` occurs as a substring of `s`. -/
def strContains (s sub : String) : Bool :=
  listContainsSub sub.data s.data

/-- JS `s.startsWith(pre)`. -/
def strStartsWith (s pre : String) : Bool :=
  listStartsWith pre.data s.data

/-- JS `s.toLowerCase().includes(sub)` (ASCII lowering). -/
def lowerContains (s sub : String) : Bool :=
  listContainsSub sub.data (s.data.map Char.toLower)

/-- JS `attr?.toLowerCase().includes(sub)`: `undefined` is falsy. -/
def optLowerContains (o : Option String) (sub : String) : Bool :=
  o.any fun s => lowerContains s sub

/-- JS `Map.get`: association-list lookup (JS Map keys are unique). -/
def mapLookup {α : Type} (m : List (String × α)) (k : String) : Option α :=
  match m with
  | [] => none
  | (k', v) :: rest => if k' = k then some v else mapLookup rest k

/-- JS `Map.set`: replace the entry for `k`, or append a fresh one. -/
def mapSet {α : Type} (m : List (String × α)) (k : String) (v : α) : List (String × α) :=
  match m with
  | [] => [(k, v)]
  | (k', v') :: rest => if k' = k then (k, v) :: rest else (k', v') :: mapSet rest k v

/-- JS `Map.delete`: drop the entry for `k` (keys unique, so dropping all
occurrences implements the same semantics). -/
def mapErase {α : Type} (m : List (String × α)) (k : String) : List (String × α) :=
  match m with
  | [] => []
  | (k', v) :: rest => if k' = k then mapErase rest k else (k', v) :: mapErase rest k

theorem mapLookup_mapSet {α : Type} (m : List (String × α)) (k k' : String) (v : α) :
    mapLookup (mapSet m k v) k' = if k = k' then some v else mapLookup m k' := by
  induction m with
  | nil =>
    by_cases h : k = k' <;> simp [mapSet, mapLookup, h]
  | cons p rest ih =>
    obtain ⟨a, b⟩ := p
    by_cases hak : a = k <;> by_cases hkk : k = k' <;> by_cases hak' : a = k' <;>
      simp_all [mapSet, mapLookup]

theorem mapLookup_mapErase_self {α : Type} (m : List (String × α)) (k : String) :
    mapLookup (mapErase m k) k = none := by
  induction m with
  | nil => simp [mapErase, mapLookup]
  | cons p rest ih =>
    obtain ⟨a, b⟩ := p
    by_cases hak : a = k <;> simp [mapErase, mapLookup, hak, ih]

theorem mapLookup_mapErase_other {α : Type} (m : List (String × α)) (k k' : String)
    (h : k' ≠ k) : mapLookup (mapErase m k) k' = mapLookup m k' := by
  induction m with
  | nil => simp [mapErase]
  | cons p rest ih =>
    obtain ⟨a, b⟩ := p
    by_cases hak : a = k <;> by_cases hak' : a = k' <;>
      simp_all [mapErase, mapLookup]

theorem mapLookup_isSome_of_mem {α : Type} (m : List (String × α)) (k : String) (v : α)
    (h : (k, v) ∈ m) : (mapLookup m k).isSome := by
  induction m with
  | nil => simp at h
  | cons p rest ih =>
    obtain ⟨a, b⟩ := p
    rcases List.mem_cons.mp h with h1 | h2
    · injection h1 with h1a h1b
      subst h1a
      simp [mapLookup]
    · by_cases hak : a = k <;> simp [mapLookup, hak, ih h2]

/-- A tracked account as stored in `monitoredUsers` by `handleTrackCommand`
(the `addedAt` timestamp field is omitted: nothing reads it). -/
structure TrackedUser where
  platform : String
  username : String
  displayName : String
  resolvedId : Option String
deriving DecidableEq

/-- Key construction: `` `${platform}:${username}` ``. -/
def accountKey (platform username : String) : String :=
  platform ++ ":" ++ username

/-- The per-key comparison step of `checkAllStreams` (src/index.js lines
392-401) for one observation: given the stored `liveStatus` entry (`none`
= absent) and the boolean observed by the checker, returns the new stored entry
and whether a live notification is sent.
`wasLive = this.liveStatus.get(key) || false`. -/
def evalStep (prev : Option Bool) (observed : Bool) : Option Bool × Bool :=
  let wasLive := prev.getD false
  if observed && !wasLive then (some true, true)
  else if !observed && wasLive then (some false, false)
  else (prev, false)

/-- Repeated per-cycle evaluations on a single key: for each observation,
record the pre-state, the observation and whether a notification fired,
then continue from the updated state. -/
def evalTrace (prev : Option Bool) : List Bool → List (Option Bool × Bool × Bool)
  | [] => []
  | o :: os =>
    let r := evalStep prev o
    (prev, o, r.2) :: evalTrace r.1 os

/-- Outcome of the Kick channel-info request of `tryKickAPI`
(src/index.js lines 647-668): on HTTP success the `livestream` field of the
JSON body (null or an object whose content is never inspected); on failure
the HTTP status carried by `error.response?.status` (`none` for network
errors that have no response). -/
inductive KickStep1Outcome where
  | success (livestream : Option Unit)
  | failure (status : Option Nat)
deriving DecidableEq

/-- Embeds `tryKickAPI` (src/index.js lines 635-676).  JS return values `true`,
`false` and `null` are modelled as `some true`, `some false` and `none`;
a rethrown error as `Except.error` carrying the status.  On success it
returns `response.data.livestream !== null`; a 403 is converted to `null`
("signal to try fallback method"); any other error is rethrown. -/
def tryKickAPI (r : KickStep1Outcome) : Except (Option Nat) (Option Bool) :=
  match r with
  | .success livestream => .ok (some livestream.isSome)
  | .failure status => if status = some 403 then .ok none else .error status

/-- The parts of the Kick channel page inspected by `tryKickWebScraping`
(src/index.js lines 711-733): each field is the value of one cheerio
query over the fetched HTML. -/
structure KickPage where
  title : String
  ogTitle : Option String
  metaDescription : Option String
  liveIndicatorCount : Nat
  liveIndicatorTestIdCount : Nat
  livestreamContainerCount : Nat
  bodyText : String
  videoCount : Nat
  scriptText : String
deriving DecidableEq

/-- Embeds `tryKickWebScraping` (src/index.js lines 678-744): on any fetch error
the catch block returns `false`; on success, the OR of the listed live
indicators, in source order. -/
def tryKickWebScraping (r : Except Unit KickPage) : Bool :=
  match r with
  | .error _ => false
  | .ok page =>
    let liveIndicators : List Bool := [
      lowerContains page.title "live",
      optLowerContains page.ogTitle "live",
      optLowerContains page.metaDescription "live",
      page.liveIndicatorCount > 0,
      page.liveIndicatorTestIdCount > 0,
      page.livestreamContainerCount > 0,
      lowerContains page.bodyText "is live",
      lowerContains page.bodyText "live now",
      page.videoCount > 0 && lowerContains page.bodyText "live",
      strContains page.scriptText "\x22livestream\x22" && strContains page.scriptText "true"]
    liveIndicators.any id

/-- Embeds `checkKickLive` (src/index.js lines 609-633), after the rate-limiting
step (modelled separately by `kickRateDispatch`).  The second component
counts invocations of `tryKickWebScraping`.  The JS guard
`if (response) return response` takes the returned value only when it is
truthy, i.e. equal to `true`; both `false` (API succeeded, livestream
null) and `null` (403 signal) fall through to the scraping fallback.  A
rethrown step-1 error reaches the outer catch, which returns `false`. -/
def checkKickLive (step1 : KickStep1Outcome) (step2 : Except Unit KickPage) : Bool × Nat :=
  match tryKickAPI step1 with
  | .ok response =>
    if response = some true then (true, 0)
    else (tryKickWebScraping step2, 1)
  | .error _ => (false, 0)

/-- The rate-limiting prologue of `checkKickLive` (src/index.js lines
610-616) under an idealized clock: `lastKickRequest` is the recorded
timestamp of the previous dispatch, `now` is `Date.now()` on entry,
`kickRequestDelay = 3000`.  If the elapsed time is under 3000 ms the
caller awaits `setTimeout` for the difference (assumed to sleep exactly
that long); the value returned is the new `lastKickRequest` recorded by
`Date.now()` after the wait. -/
def kickRateDispatch (lastKickRequest now : Int) : Int :=
  let timeSinceLastRequest := now - lastKickRequest
  if timeSinceLastRequest < 3000 then now + (3000 - timeSinceLastRequest) else now

/-- Error cases distinguished by the catch block of `checkTikTokLive`
(src/index.js lines 595-606): 404, 403, timeout (`ECONNABORTED`), or
anything else; the distinction feeds only `console.error`. -/
inductive TikTokFetchError where
  | status404
  | status403
  | timeout
  | otherErr (status : Option Nat)
deriving DecidableEq

/-- The parts of the TikTok live page inspected by `checkTikTokLive`
(src/index.js lines 553-586), one field per cheerio query, plus the final
`response.request.res.responseUrl` (`none` when falsy/absent). -/
structure TikTokPage where
  title : String
  ogTitle : Option String
  metaDescription : Option String
  jsonLdCount : Nat
  jsonLdText : String
  liveRoomClassCount : Nat
  liveRoomE2ECount : Nat
  liveStreamClassCount : Nat
  liveStreamTestIdCount : Nat
  bodyText : String
  liveContainerCount : Nat
  classLiveAttrCount : Nat
  classRoomAttrCount : Nat
  responseUrl : Option String
deriving DecidableEq

/-- Embeds `checkTikTokLive` (src/index.js lines 530-607): on any fetch error the
catch block logs a case-specific diagnostic and returns `false`; on a 200
response, the OR of the live indicators in source order, overridden to
`false` when the final redirected URL no longer contains `/live`. -/
def checkTikTokLive (r : Except TikTokFetchError TikTokPage) : Bool :=
  match r with
  | .error _ => false
  | .ok page =>
    let indicators : List Bool := [
      lowerContains page.title "live",
      optLowerContains page.ogTitle "live",
      optLowerContains page.metaDescription "live",
      page.jsonLdCount > 0 && lowerContains page.jsonLdText "live",
      page.liveRoomClassCount > 0,
      page.liveRoomE2ECount > 0,
      page.liveStreamClassCount > 0,
      page.liveStreamTestIdCount > 0,
      lowerContains page.bodyText "is live",
      lowerContains page.bodyText "live now",
      page.liveContainerCount > 0,
      page.classLiveAttrCount > 0 && page.classRoomAttrCount > 0]
    let isLive := indicators.any id
    match page.responseUrl with
    | some u => if !strContains u "/live" then false else isLive
    | none => isLive

/-- Embeds `getTwitchToken` (src/index.js lines 517-528): the mutable slot
`this.twitchToken` (`none` = JS `null`) updated by the client-credentials
grant whose outcome is `grant`.  On success the slot is set to
`access_token`; on failure the catch block only logs, leaving the slot
unchanged. -/
def getTwitchToken (slot : Option String) (grant : Except Unit String) : Option String :=
  match grant with
  | .ok tok => some tok
  | .error _ => slot

/-- Error cases of the Twitch streams lookup: an auth rejection (401-class)
or anything else; the catch block of `checkTwitchLive` does not distinguish
them. -/
inductive TwitchApiError where
  | authRejected
  | otherErr
deriving DecidableEq

/-- Embeds `checkTwitchLive` (src/index.js lines 494-515): if the token slot is
null, first runs `getTwitchToken`; then performs the streams lookup whose
outcome is `api` (`.ok n` = number of entries in `response.data.data`).
Returns the updated token slot and the boolean result; the catch block
returns `false` and does not touch the token slot. -/
def checkTwitchLive (slot : Option String) (grant : Except Unit String)
    (api : Except TwitchApiError Nat) : Option String × Bool :=
  let slot' := match slot with
    | none => getTwitchToken none grant
    | some t => some t
  match api with
  | .ok n => (slot', n > 0)
  | .error _ => (slot', false)

/-- Combined outcome of the two resolution requests of
`resolveYouTubeChannel`: the channel ids returned by the search endpoint
and by the `forUsername` channels endpoint, or a network error from
either (the surrounding catch collapses both to the same result). -/
inductive ResolveOutcome where
  | ok (searchChannelIds : List String) (forUsernameIds : List String)
  | netError
deriving DecidableEq

/-- Embeds `resolveYouTubeChannel` (src/index.js lines 457-492): take the first
search result channelId field; otherwise the id of the first `forUsername`
item; otherwise `null`; any error is caught and yields `null`. -/
def resolveYouTubeChannel (r : ResolveOutcome) : Option String :=
  match r with
  | .ok (cid :: _) _ => some cid
  | .ok [] (cid :: _) => some cid
  | .ok [] [] => none
  | .netError => none

/-- Embeds `checkYouTubeLive` (src/index.js lines 423-455).  `liveSearch` is the
outcome of the channel-scoped live-event search (`.ok n` = number of
items).  The second component of the result records whether
`resolveYouTubeChannel` was invoked during this call.  Inputs not starting
with `UC` are re-resolved on every call; resolution failure, a missing API
key, or an API error all yield `false`. -/
def checkYouTubeLive (hasApiKey : Bool) (channelInput : String) (res : ResolveOutcome)
    (liveSearch : Except Unit Nat) : Bool × Bool :=
  if !hasApiKey then (false, false)
  else if strStartsWith channelInput "UC" then
    match liveSearch with
    | .ok n => (n > 0, false)
    | .error _ => (false, false)
  else
    match resolveYouTubeChannel res with
    | none => (false, true)
    | some _ =>
      match liveSearch with
      | .ok n => (n > 0, true)
      | .error _ => (false, true)

/-- Result of `validateYouTubeUser` as consumed by `handleTrackCommand`:
either invalid with a message, or valid with the `resolvedId` to store
and a note. -/
inductive ValidationResult where
  | invalid (message : String)
  | valid (resolvedId : Option String) (note : String)
deriving DecidableEq

/-- Embeds `validateYouTubeUser` (src/index.js lines 241-276): inputs starting
with `UC` are accepted as canonical ids unchanged; anything else is
resolved once, and the resolved channel id becomes the stored
`resolvedId`. -/
def validateYouTubeUser (hasApiKey : Bool) (username : String) (res : ResolveOutcome) :
    ValidationResult :=
  if !hasApiKey then .invalid "YouTube API key not configured"
  else if strStartsWith username "UC" then .valid (some username) ""
  else
    match resolveYouTubeChannel res with
    | none =>
      .invalid ("Could not find YouTube channel: " ++ username ++
        ". Try using the channel ID instead.")
    | some cid => .valid (some cid) ("Resolved to channel ID: " ++ cid)

/-- Embeds the youtube case of `checkStreamStatus` as invoked from
`checkAllStreams` (src/index.js lines 391 and 408-421): the scheduler
passes `user.username` to the checker; the stored `resolvedId` of the
account
field is not consulted. -/
def checkStreamStatusYouTube (hasApiKey : Bool) (user : TrackedUser) (res : ResolveOutcome)
    (liveSearch : Except Unit Nat) : Bool × Bool :=
  checkYouTubeLive hasApiKey user.username res liveSearch

/-- Embeds `generateYouTubeUrl` (src/index.js lines 780-787). -/
def generateYouTubeUrl (channelInput : String) : String :=
  if strStartsWith channelInput "UC" then
    "https://youtube.com/channel/" ++ channelInput ++ "/live"
  else
    "https://youtube.com/@" ++ channelInput ++ "/live"

/-- Embeds `generateLiveUrl` (src/index.js lines 770-778); an unknown
platform falls back to the hash string. -/
def generateLiveUrl (platform username : String) : String :=
  if platform = "youtube" then generateYouTubeUrl username
  else if platform = "twitch" then "https://twitch.tv/" ++ username
  else if platform = "tiktok" then "https://tiktok.com/@" ++ username ++ "/live"
  else if platform = "kick" then "https://kick.com/" ++ username
  else "#"

/-- The notification payload handed to the webhook by
`sendLiveNotification` (src/index.js lines 746-768): display name,
platform and the live URL. -/
structure LivePayload where
  displayName : String
  platform : String
  liveUrl : String
deriving DecidableEq

def makeLivePayload (u : TrackedUser) : LivePayload :=
  ⟨u.displayName, u.platform, generateLiveUrl u.platform u.username⟩

/-- The body of the `for` loop of `checkAllStreams` (src/index.js lines
389-405) for one account: `obs` is the outcome of
`await checkStreamStatus(...)` (`.error` = the checker threw; caught and
logged).  Returns the updated `liveStatus` map and the notification sent,
if any. -/
def cycleStep (obs : Except Unit Bool) (key : String) (user : TrackedUser)
    (live : List (String × Bool)) : List (String × Bool) × Option (String × LivePayload) :=
  match obs with
  | .error _ => (live, none)
  | .ok isLive =>
    let wasLive := (mapLookup live key).getD false
    if isLive && !wasLive then (mapSet live key true, some (key, makeLivePayload user))
    else if !isLive && wasLive then (mapSet live key false, none)
    else (live, none)

/-- Result of one full `checkAllStreams` cycle: the final `liveStatus`
map, the notifications sent (with the key of the account that fired), and
the keys attempted, all in iteration order. -/
structure CycleResult where
  newLive : List (String × Bool)
  notifs : List (String × LivePayload)
  attempts : List String
deriving DecidableEq

/-- Embeds `checkAllStreams` (src/index.js lines 386-406): sequential iteration
over `monitoredUsers`, with the per-account check outcome given by
`oracle`. -/
def checkAllStreams (oracle : String → Except Unit Bool) :
    List (String × TrackedUser) → List (String × Bool) → CycleResult
  | [], live => ⟨live, [], []⟩
  | (key, user) :: rest, live =>
    let step := cycleStep (oracle key) key user live
    let r := checkAllStreams oracle rest step.1
    ⟨r.newLive, step.2.toList ++ r.notifs, key :: r.attempts⟩

/-- The mutable bot state relevant to tracking: `this.monitoredUsers` and
`this.liveStatus`. -/
structure BotState where
  monitoredUsers : List (String × TrackedUser)
  liveStatus : List (String × Bool)
deriving DecidableEq

/-- Embeds `handleTrackCommand` (src/index.js lines 189-224): build the key, bail
out if already monitored or if validation failed, else store the account
(with the `resolvedId` from validation).  `liveStatus` is not touched. -/
def handleTrackCommand (platform username displayName : String) (valid : Bool)
    (resolvedId : Option String) (s : BotState) : BotState :=
  let key := accountKey platform username
  if (mapLookup s.monitoredUsers key).isSome then s
  else if !valid then s
  else
    { s with
      monitoredUsers := mapSet s.monitoredUsers key ⟨platform, username, displayName, resolvedId⟩ }

/-- Embeds `handleRemoveCommand` (src/index.js lines 317-331): if the key is
monitored, delete it from `monitoredUsers` and from `liveStatus` in the
same operation; otherwise reply and change nothing. -/
def handleRemoveCommand (platform username : String) (s : BotState) : BotState :=
  let key := accountKey platform username
  if (mapLookup s.monitoredUsers key).isSome then
    { monitoredUsers := mapErase s.monitoredUsers key,
      liveStatus := mapErase s.liveStatus key }
  else s

/-- One scheduler cycle over the whole bot state. -/
def runCycle (oracle : String → Except Unit Bool) (s : BotState) : BotState × CycleResult :=
  let r := checkAllStreams oracle s.monitoredUsers s.liveStatus
  ({ s with liveStatus := r.newLive }, r)

/-- Bot states reachable from the fresh-start state (both maps empty, as
in the constructor / a missing data file) by track commands, remove
commands and scheduler cycles. -/
inductive BotReachable : BotState → Prop where
  | init : BotReachable ⟨[], []⟩
  | track (platform username displayName : String) (valid : Bool)
      (resolvedId : Option String) (s : BotState) :
      BotReachable s →
      BotReachable (handleTrackCommand platform username displayName valid resolvedId s)
  | remove (platform username : String) (s : BotState) :
      BotReachable s → BotReachable (handleRemoveCommand platform username s)
  | cycle (oracle : String → Except Unit Bool) (s : BotState) :
      BotReachable s → BotReachable (runCycle oracle s).1

theorem evalStep_notified (prev : Option Bool) (o : Bool) :
    ((evalStep prev o).2 = true) ↔ (o = true ∧ prev.getD false = false) := by
  revert prev o
  decide

/-- C1: over any sequence of per-cycle evaluations on one tracked-account
key, a live notification is emitted in a cycle if and only if the stored
LiveState for the key was `false` or absent before that cycle and the
observed value in that cycle is `true`; in particular a `true` observed
after a stored `true` (sustained live) emits nothing. -/
theorem C1_edge_triggered_notification (prev : Option Bool) (obs : List Bool)
    (p : Option Bool) (o n : Bool) (h : (p, o, n) ∈ evalTrace prev obs) :
    n = true ↔ (o = true ∧ p.getD false = false) := by
  induction obs generalizing prev with
  | nil => simp [evalTrace] at h
  | cons o' os ih =>
    simp only [evalTrace, List.mem_cons] at h
    rcases h with h | h
    · rw [Prod.mk.injEq, Prod.mk.injEq] at h
      obtain ⟨hp, ho, hn⟩ := h
      subst hp; subst ho; subst hn
      exact evalStep_notified _ _
    · exact ih _ h

theorem C1_edge_triggered_notification_witness :
    ((none : Option Bool), true, true) ∈ evalTrace none [true] ∧
      (true = true ↔ (true = true ∧ (none : Option Bool).getD false = false)) :=
  ⟨by decide, C1_edge_triggered_notification none [true] none true true (by decide)⟩

/-- C2 (failing input): when the step-1 Kick API call completes
successfully with a null `livestream` field, `tryKickAPI` returns the
boolean `false`, yet `checkKickLive` — whose guard `if (response)` treats
`false` and the `null` fallback signal alike — invokes the step-2 scraping
fallback anyway (here once, on a page carrying a live-indicator element)
and returns `true` instead of the step-1 result `false`. -/
theorem C2_kick_truthiness_failing_input :
    tryKickAPI (.success none) = .ok (some false) ∧
      checkKickLive (.success none)
        (.ok ⟨"", none, none, 1, 0, 0, "", 0, ""⟩) = (true, 1) := by
  constructor
  · rfl
  · rfl

/-- C3: if step 1 of the Kick checker fails with a 403 status, step-2
scraping is invoked exactly once and its result is returned; if step 1
fails with any other error (any status other than 403, or a statusless
network error), step 2 is never invoked and the checker returns `false`
without propagating the error. -/
theorem C3_kick_fallback_dispatch (st : Option Nat) (h : st ≠ some 403)
    (page : Except Unit KickPage) :
    checkKickLive (.failure (some 403)) page = (tryKickWebScraping page, 1) ∧
      checkKickLive (.failure st) page = (false, 0) := by
  constructor
  · simp [checkKickLive, tryKickAPI]
  · simp [checkKickLive, tryKickAPI, h]

theorem C3_kick_fallback_dispatch_witness :
    checkKickLive (.failure (some 403)) (.error ()) = (tryKickWebScraping (.error ()), 1) ∧
      checkKickLive (.failure none) (.error ()) = (false, 0) :=
  C3_kick_fallback_dispatch none (by decide) (.error ())

/-- C4 (counterexample): with a Valid token slot, an auth rejection from
the dependent streams call leaves the slot untouched — `checkTwitchLive`
returns `false` from its catch block without clearing `this.twitchToken`,
so the cache does NOT transition Valid→Empty as the claim states. -/
theorem C4_token_not_invalidated_counterexample :
    (checkTwitchLive (some "tok") (.error ()) (.error .authRejected)).1 ≠ none ∧
      (checkTwitchLive (some "tok") (.error ()) (.error .authRejected)).2 = false := by
  constructor
  · simp [checkTwitchLive]
  · rfl

/-- C4 (amended): the cached Twitch token is never invalidated by the
checker.  Whenever the slot holds a token, `checkTwitchLive` leaves it
unchanged — for every outcome, including an auth rejection of the
dependent call; an empty slot is filled (only) by a successful
acquisition; and any dependent-call error yields not-live. -/
theorem C4_token_cache_amended (slot : Option String) (grant : Except Unit String)
    (api : Except TwitchApiError Nat) :
    (∀ t, slot = some t → (checkTwitchLive slot grant api).1 = some t) ∧
      (checkTwitchLive none grant api).1 = getTwitchToken none grant ∧
      (∀ e : TwitchApiError, (checkTwitchLive slot grant (.error e)).2 = false) := by
  refine ⟨?_, ?_, ?_⟩
  · rintro t rfl
    cases api <;> rfl
  · cases api <;> rfl
  · intro e
    cases slot <;> rfl

theorem C4_token_cache_amended_witness :
    (checkTwitchLive (some "tok") (.error ()) (.error .authRejected)).1 = some "tok" :=
  (C4_token_cache_amended (some "tok") (.error ()) (.error .authRejected)).1 "tok" rfl

/-- C7: under the idealized clock model, for two consecutive Kick checker
invocations the dispatch timestamp recorded by the second invocation is at
least 3000 ms after the first one recorded (`lastKickRequest`): the
prologue suspends the caller until the spacing is satisfied and then
records the new dispatch time. -/
theorem C7_kick_rate_spacing (lastKickRequest now : Int) :
    lastKickRequest + 3000 ≤ kickRateDispatch lastKickRequest now := by
  simp only [kickRateDispatch]
  split <;> omega

/-- C8: the TikTok checker never propagates an error: every fetch failure
— 404, 403, timeout, or any other network error or non-200 status — is
caught and yields the value `false` (not-live); the error class feeds only
logging, never the returned value. -/
theorem C8_tiktok_errors_yield_not_live (e : TikTokFetchError) :
    checkTikTokLive (.error e) = false := rfl

/-- C5 (failing input): for a non-canonical YouTube input, validation at
creation resolves the channel once and stores the canonical id in
`resolvedId` — but the poll-cycle check receives `user.username` (not the
cached `resolvedId`), so `checkYouTubeLive` re-invokes resolution on every
cycle (second component `true`), and the check result is entirely
independent of the stored `resolvedId` field. -/
theorem C5_resolvedId_not_used_in_polling :
    validateYouTubeUser true "somehandle" (.ok ["UCabc123"] []) =
        .valid (some "UCabc123") "Resolved to channel ID: UCabc123" ∧
      (checkStreamStatusYouTube true ⟨"youtube", "somehandle", "Some Handle", some "UCabc123"⟩
        (.ok ["UCabc123"] []) (.ok 1)).2 = true ∧
      checkStreamStatusYouTube true ⟨"youtube", "somehandle", "Some Handle", some "UCabc123"⟩
          (.ok ["UCabc123"] []) (.ok 1) =
        checkStreamStatusYouTube true ⟨"youtube", "somehandle", "Some Handle", none⟩
          (.ok ["UCabc123"] []) (.ok 1) := by
  refine ⟨?_, ?_, ?_⟩ <;> rfl

theorem mapSet_lookup_isSome {α : Type} (m : List (String × α)) (k : String) (v : α)
    (k' : String) (h : (mapLookup (mapSet m k v) k').isSome = true) :
    (mapLookup m k').isSome = true ∨ k' = k := by
  rw [mapLookup_mapSet] at h
  by_cases hk : k = k'
  · exact Or.inr hk.symm
  · rw [if_neg hk] at h
    exact Or.inl h

theorem cycleStep_fst_lookup_isSome (obs : Except Unit Bool) (k : String) (u : TrackedUser)
    (live : List (String × Bool)) (k' : String)
    (h : (mapLookup (cycleStep obs k u live).1 k').isSome = true) :
    (mapLookup live k').isSome = true ∨ k' = k := by
  cases obs with
  | error e => exact Or.inl h
  | ok isLive =>
    simp only [cycleStep] at h
    split at h
    · exact mapSet_lookup_isSome _ _ _ _ h
    · split at h
      · exact mapSet_lookup_isSome _ _ _ _ h
      · exact Or.inl h

theorem cycleStep_fst_lookup_other (obs : Except Unit Bool) (k : String) (u : TrackedUser)
    (live : List (String × Bool)) (k' : String) (h : k' ≠ k) :
    mapLookup (cycleStep obs k u live).1 k' = mapLookup live k' := by
  cases obs with
  | error e => rfl
  | ok isLive =>
    simp only [cycleStep]
    split
    · rw [mapLookup_mapSet, if_neg (Ne.symm h)]
    · split
      · rw [mapLookup_mapSet, if_neg (Ne.symm h)]
      · rfl

theorem cycleStep_notif_key (obs : Except Unit Bool) (k : String) (u : TrackedUser)
    (live : List (String × Bool)) (p : String × LivePayload)
    (h : p ∈ (cycleStep obs k u live).2.toList) : p.1 = k := by
  cases obs with
  | error e => simp [cycleStep] at h
  | ok isLive =>
    simp only [cycleStep] at h
    split at h
    · simp only [Option.toList, List.mem_singleton] at h
      subst h
      rfl
    · split at h <;> simp [Option.toList] at h

theorem checkAllStreams_newLive_isSome (oracle : String → Except Unit Bool)
    (users : List (String × TrackedUser)) (live : List (String × Bool)) (k : String)
    (h : (mapLookup (checkAllStreams oracle users live).newLive k).isSome = true) :
    (mapLookup live k).isSome = true ∨ ∃ u, (k, u) ∈ users := by
  induction users generalizing live with
  | nil => exact Or.inl h
  | cons q rest ih =>
    obtain ⟨key, user⟩ := q
    simp only [checkAllStreams] at h
    rcases ih _ h with h' | ⟨u, hu⟩
    · rcases cycleStep_fst_lookup_isSome _ _ _ _ _ h' with h'' | rfl
      · exact Or.inl h''
      · exact Or.inr ⟨user, List.mem_cons_self _ _⟩
    · exact Or.inr ⟨u, List.mem_cons_of_mem _ hu⟩

theorem botReachable_liveStatus_sub (s : BotState) (hs : BotReachable s) :
    ∀ k, (mapLookup s.liveStatus k).isSome = true →
      (mapLookup s.monitoredUsers k).isSome = true := by
  induction hs with
  | init =>
    intro k hk
    simp [mapLookup] at hk
  | track platform username displayName valid resolvedId s hs ih =>
    intro k hk
    simp only [handleTrackCommand] at hk ⊢
    by_cases hmem : (mapLookup s.monitoredUsers (accountKey platform username)).isSome = true
    · rw [if_pos hmem] at hk ⊢
      exact ih k hk
    · rw [if_neg hmem] at hk ⊢
      cases valid with
      | false => exact ih k hk
      | true =>
        have hk' : (mapLookup s.liveStatus k).isSome = true := hk
        show (mapLookup (mapSet s.monitoredUsers (accountKey platform username)
          ⟨platform, username, displayName, resolvedId⟩) k).isSome = true
        rw [mapLookup_mapSet]
        split
        · rfl
        · exact ih k hk'
  | remove platform username s hs ih =>
    intro k hk
    simp only [handleRemoveCommand] at hk ⊢
    by_cases hmem : (mapLookup s.monitoredUsers (accountKey platform username)).isSome = true
    · rw [if_pos hmem] at hk ⊢
      by_cases hkey : k = accountKey platform username
      · have hk' : (mapLookup (mapErase s.liveStatus (accountKey platform username)) k).isSome
            = true := hk
        rw [hkey, mapLookup_mapErase_self] at hk'
        simp at hk'
      · have hk' : (mapLookup (mapErase s.liveStatus (accountKey platform username)) k).isSome
            = true := hk
        rw [mapLookup_mapErase_other _ _ _ hkey] at hk'
        show (mapLookup (mapErase s.monitoredUsers (accountKey platform username)) k).isSome
          = true
        rw [mapLookup_mapErase_other _ _ _ hkey]
        exact ih k hk'
    · rw [if_neg hmem] at hk ⊢
      exact ih k hk
  | cycle oracle s hs ih =>
    intro k hk
    have hk' : (mapLookup (checkAllStreams oracle s.monitoredUsers s.liveStatus).newLive k).isSome
        = true := hk
    show (mapLookup s.monitoredUsers k).isSome = true
    rcases checkAllStreams_newLive_isSome _ _ _ _ hk' with h' | ⟨u, hu⟩
    · exact ih k h'
    · exact mapLookup_isSome_of_mem _ _ _ hu

theorem handleTrackCommand_liveStatus (platform username displayName : String) (valid : Bool)
    (resolvedId : Option String) (s : BotState) :
    (handleTrackCommand platform username displayName valid resolvedId s).liveStatus
      = s.liveStatus := by
  simp only [handleTrackCommand]
  split
  · rfl
  · split <;> rfl

/-- C6: removing a tracked account deletes its LiveState entry within the
same remove operation; re-adding the same (platform, username) key right
after the removal starts with that LiveState entry absent; and in every
reachable bot state, every key present in LiveState is the key of a
currently monitored account (hence of an account that was tracked at some
point — the tracker never fabricates keys). -/
theorem C6_remove_clears_liveState (s : BotState) (hs : BotReachable s)
    (platform username displayName : String) (valid : Bool) (resolvedId : Option String) :
    mapLookup (handleRemoveCommand platform username s).liveStatus
        (accountKey platform username) = none ∧
      mapLookup (handleTrackCommand platform username displayName valid resolvedId
          (handleRemoveCommand platform username s)).liveStatus
        (accountKey platform username) = none ∧
      (∀ k, (mapLookup s.liveStatus k).isSome = true →
        (mapLookup s.monitoredUsers k).isSome = true) := by
  have hinv := botReachable_liveStatus_sub s hs
  have h1 : mapLookup (handleRemoveCommand platform username s).liveStatus
      (accountKey platform username) = none := by
    simp only [handleRemoveCommand]
    by_cases hmem : (mapLookup s.monitoredUsers (accountKey platform username)).isSome = true
    · rw [if_pos hmem]
      exact mapLookup_mapErase_self _ _
    · rw [if_neg hmem]
      cases hls : mapLookup s.liveStatus (accountKey platform username) with
      | none => rfl
      | some b => exact absurd (hinv _ (by rw [hls]; rfl)) hmem
  refine ⟨h1, ?_, hinv⟩
  rw [handleTrackCommand_liveStatus]
  exact h1

theorem C6_remove_clears_liveState_witness :
    mapLookup (handleRemoveCommand "twitch" "ninja" ⟨[], []⟩).liveStatus
        (accountKey "twitch" "ninja") = none ∧
      mapLookup (handleTrackCommand "twitch" "ninja" "Ninja" true none
          (handleRemoveCommand "twitch" "ninja" ⟨[], []⟩)).liveStatus
        (accountKey "twitch" "ninja") = none ∧
      (∀ k, (mapLookup (⟨[], []⟩ : BotState).liveStatus k).isSome = true →
        (mapLookup (⟨[], []⟩ : BotState).monitoredUsers k).isSome = true) :=
  C6_remove_clears_liveState ⟨[], []⟩ BotReachable.init "twitch" "ninja" "Ninja" true none

/-- C9: a scheduler check cycle attempts every tracked account exactly
once, in iteration order, whatever the per-account outcomes are — a
checker error on one account (caught in the loop body) never aborts the
rest of the cycle. -/
theorem C9_every_account_attempted (oracle : String → Except Unit Bool)
    (users : List (String × TrackedUser)) (live : List (String × Bool)) :
    (checkAllStreams oracle users live).attempts = users.map Prod.fst := by
  induction users generalizing live with
  | nil => rfl
  | cons q rest ih =>
    obtain ⟨key, user⟩ := q
    simp only [checkAllStreams, List.map_cons]
    rw [ih]

/-- C10: if the checker for an account errors during a cycle, that
account's LiveState entry is exactly what it was before the cycle and no
notification carrying its key is emitted: an error observation never
creates, deletes or flips a LiveState entry. -/
theorem C10_checker_error_frame (oracle : String → Except Unit Bool)
    (users : List (String × TrackedUser)) (live : List (String × Bool)) (key : String)
    (herr : oracle key = .error ()) :
    mapLookup (checkAllStreams oracle users live).newLive key = mapLookup live key ∧
      ∀ p ∈ (checkAllStreams oracle users live).notifs, p.1 ≠ key := by
  induction users generalizing live with
  | nil =>
    refine ⟨rfl, ?_⟩
    intro p hp
    simp [checkAllStreams] at hp
  | cons q rest ih =>
    obtain ⟨k', u⟩ := q
    by_cases hk : k' = key
    · subst hk
      simp only [checkAllStreams, herr]
      obtain ⟨ih1, ih2⟩ := ih live
      refine ⟨ih1, ?_⟩
      intro p hp
      rcases List.mem_append.mp hp with hp1 | hp2
      · simp [cycleStep, Option.toList] at hp1
      · exact ih2 p hp2
    · obtain ⟨ih1, ih2⟩ := ih ((cycleStep (oracle k') k' u live).1)
      simp only [checkAllStreams]
      refine ⟨?_, ?_⟩
      · rw [ih1, cycleStep_fst_lookup_other _ _ _ _ _ (Ne.symm hk)]
      · intro p hp
        rcases List.mem_append.mp hp with hp1 | hp2
        · have hpk := cycleStep_notif_key _ _ _ _ _ hp1
          rw [hpk]
          exact hk
        · exact ih2 p hp2

theorem C10_checker_error_frame_witness :
    mapLookup (checkAllStreams (fun _ => .error ())
          [(accountKey "twitch" "ninja", ⟨"twitch", "ninja", "Ninja", none⟩)] []).newLive
        (accountKey "twitch" "ninja")
      = mapLookup ([] : List (String × Bool)) (accountKey "twitch" "ninja") ∧
      ∀ p ∈ (checkAllStreams (fun _ => .error ())
          [(accountKey "twitch" "ninja", ⟨"twitch", "ninja", "Ninja", none⟩)] []).notifs,
        p.1 ≠ accountKey "twitch" "ninja" :=
  C10_checker_error_frame _ _ _ _ rfl
